import Mathlib

/-!
Speech-to-text popup controller (`src/popup.js`).

A shallow embedding of the `SpeechToText` class.  The controller object, the
DOM elements it holds and the two key-value stores are one explicit state
record; every method of the class is a function on that record.  Results the
platform hands back (permission query, microphone acquisition, a refused
`start()`) are arguments of the method that receives them.

JavaScript strings are sequences of UTF-16 code units, so `length`,
`substring` and the caret offsets count code units exactly as the source does.
-/

namespace SpeechToText

/-! ## JavaScript strings -/

/-- A JavaScript string, as the list of its UTF-16 code units. -/
abbrev JSString := List Nat

/-- The code units of an ASCII string literal of the source. -/
def lit (s : String) : JSString := s.data.map Char.toNat

/-- The one-character string holding a double quote. -/
def dquote : JSString := [34]

/-- The one-character string `' '`. -/
def space : JSString := [32]

/-- Truthiness of a string in a condition: `if (str)` holds unless `str` is empty. -/
def truthy (s : JSString) : Bool := !s.isEmpty

/-- Method `String.prototype.substring(start, end)`: both indices are clamped to the
length and swapped when out of order; an absent `end` means the length. -/
def substring (s : JSString) (start : Nat) (stop : Option Nat) : JSString :=
  let len := s.length
  let a := min start len
  let b := min (stop.getD len) len
  (s.take (max a b)).drop (min a b)

/-- Method `String.prototype.includes(pat)`: `pat` occurs somewhere in the string. -/
def includes : JSString → JSString → Bool
  | [], pat => pat.isEmpty
  | c :: cs, pat => pat.isPrefixOf (c :: cs) || includes cs pat

/-! ## DOM elements -/

/-- The line-break normalisation of a text area: a carriage return followed by
a line feed becomes one line feed, and any other carriage return becomes a
line feed. -/
def normalizeNewlines : JSString → JSString
  | [] => []
  | c :: cs =>
    if c = 13 then
      if cs.head? = some 10 then normalizeNewlines cs else 10 :: normalizeNewlines cs
    else c :: normalizeNewlines cs

/-- The text area `#textOutput`: the raw value last assigned to it, its
selection and whether it has focus. -/
structure TextArea where
  rawValue : JSString
  selectionStart : Nat
  selectionEnd : Nat
  focused : Bool
  deriving DecidableEq, Repr

/-- Reading `textarea.value`: the raw value with its line breaks normalised.
Selection offsets count in this string. -/
def TextArea.value (t : TextArea) : JSString := normalizeNewlines t.rawValue

/-- Assignment to `textarea.value`: the raw value is replaced, and when the
value read back differs from the one read before, the text entry cursor moves
to the end of the control. -/
def TextArea.setValue (t : TextArea) (v : JSString) : TextArea :=
  if normalizeNewlines v = t.value then { t with rawValue := v }
  else { t with rawValue := v, selectionStart := (normalizeNewlines v).length,
                selectionEnd := (normalizeNewlines v).length }

/-- Method `textarea.setSelectionRange(start, end)`: both offsets are clamped to the
length of the value, and `start` is lowered to `end` when it exceeds it. -/
def TextArea.setSelectionRange (t : TextArea) (start stop : Nat) : TextArea :=
  let e := min stop t.value.length
  let b := min (min start t.value.length) e
  { t with selectionStart := b, selectionEnd := e }

/-- Method `textarea.focus()`. -/
def TextArea.focus (t : TextArea) : TextArea := { t with focused := true }

/-- The status element `#status`. -/
structure StatusElement where
  textContent : JSString
  className : JSString
  deriving DecidableEq, Repr

/-- ASCII whitespace, the separators of a class attribute. -/
def isAsciiWhitespace (c : Nat) : Bool :=
  c == 32 || c == 9 || c == 10 || c == 12 || c == 13

/-- The class tokens of a `className`; `cur` is the token being read. -/
def classTokens : JSString → JSString → List JSString
  | [], cur => if cur.isEmpty then [] else [cur]
  | c :: cs, cur =>
    if isAsciiWhitespace c then
      if cur.isEmpty then classTokens cs [] else cur :: classTokens cs []
    else classTokens cs (cur ++ [c])

/-- Method `element.classList.contains(tok)`. -/
def StatusElement.classListContains (e : StatusElement) (tok : JSString) : Bool :=
  (classTokens e.className []).contains tok

/-- What the toggle button shows. -/
inductive ButtonFace where
  | fromPage
  | stopRecording
  | startRecording
  deriving DecidableEq, Repr

/-- The toggle button `#startBtn`: label with background, and the `disabled` flag. -/
structure Button where
  face : ButtonFace
  disabled : Bool
  deriving DecidableEq, Repr

/-! ## Platform objects -/

/-- The recognition session object held in `this.recognition`.  `running` says
that a `start()` was accepted and no end event has been delivered since;
`begun` counts the sessions that actually began; `startCalls` and `stopCalls`
count the invocations made by the controller. -/
structure Session where
  running : Bool
  begun : Nat
  startCalls : Nat
  stopCalls : Nat
  deriving DecidableEq, Repr

/-- Modelled from the spec: the `start()` method of the platform recognition
session, which is not part of the repository.  "start is refused implicitly by
the session itself if already running" and it "may fail start() synchronously":
on a running session the call raises and changes nothing but the call count,
otherwise a session begins. -/
def Session.start (r : Session) : Bool × Session :=
  if r.running then (false, { r with startCalls := r.startCalls + 1 })
  else (true, { r with running := true, begun := r.begun + 1, startCalls := r.startCalls + 1 })

/-- The `stop()` method of the session: the request is recorded; the session
ends later, through the end event. -/
def Session.stop (r : Session) : Session := { r with stopCalls := r.stopCalls + 1 }

/-- The session has ended: the platform clears `running` before it delivers the
end event. -/
def Session.ended (r : Session) : Session := { r with running := false }

/-- The two key-value stores under the key `speechText`.  `chromeAvailable`
tells whether `chrome.storage.local` can be used; when it cannot, touching it
raises and the `catch` branches run. -/
structure Storage where
  chromeAvailable : Bool
  chromeLocal : Option JSString
  localStorage : Option JSString
  deriving DecidableEq, Repr

/-- A pending `setTimeout` callback, with the value its closure captured. -/
inductive Timer where
  | revertStatus (message : JSString)
  | removeHelp (helpDiv : Nat)
  deriving DecidableEq, Repr

/-! ## The controller -/

/-- The `SpeechToText` object together with the page and stores it acts on.
`help` is the `.permission-help` panel currently attached to the body, if any
(panels are numbered in creation order by `helpMade`). -/
structure Controller where
  recognition : Option Session
  isRecording : Bool
  textOutput : TextArea
  startBtn : Button
  status : StatusElement
  help : Option Nat
  helpMade : Nat
  timers : List Timer
  storage : Storage
  deriving DecidableEq, Repr

/-- Method `showStatus(message, type)`. -/
def showStatus (s : Controller) (message type : JSString) : Controller :=
  let s1 := { s with status := { textContent := message, className := lit "status " ++ type } }
  if type ≠ lit "recording" then
    { s1 with timers := s1.timers ++ [Timer.revertStatus message] }
  else s1

/-- The body of a timer callback, run when the timer fires. -/
def runTimer (s : Controller) : Timer → Controller
  | Timer.revertStatus message =>
    if s.status.textContent = message then
      { s with status := { textContent := lit "Ready to record", className := lit "status" } }
    else s
  | Timer.removeHelp d => if s.help = some d then { s with help := none } else s

/-- The `i`-th pending timer fires: it leaves the queue and its callback runs. -/
def fireTimer (s : Controller) (i : Nat) : Controller :=
  match s.timers.get? i with
  | some t => runTimer { s with timers := s.timers.eraseIdx i } t
  | none => s

/-- Method `saveText()`: write the buffer to `chrome.storage.local`, or to
`localStorage` when that raises. -/
def saveText (s : Controller) : Controller :=
  if s.storage.chromeAvailable then
    { s with storage := { s.storage with chromeLocal := some s.textOutput.value } }
  else
    { s with storage := { s.storage with localStorage := some s.textOutput.value } }

/-- The value last persisted by `saveText`, read from the store it writes to. -/
def persisted (s : Controller) : Option JSString :=
  if s.storage.chromeAvailable then s.storage.chromeLocal else s.storage.localStorage

/-- One recognised segment: the transcript of its first alternative and its
`isFinal` flag. -/
structure SpeechRecognitionResult where
  transcript : JSString
  isFinal : Bool
  deriving DecidableEq, Repr

/-- A result event. -/
structure ResultEvent where
  resultIndex : Nat
  results : List SpeechRecognitionResult
  deriving DecidableEq, Repr

/-- The segment loop of `onRecognitionResult` over the segments still to visit;
the accumulator is `(interimTranscript, finalTranscript)`. -/
def collectTranscripts : List SpeechRecognitionResult → JSString × JSString → JSString × JSString
  | [], acc => acc
  | r :: rs, (interimTranscript, finalTranscript) =>
    if r.isFinal then
      collectTranscripts rs (interimTranscript, finalTranscript ++ (r.transcript ++ space))
    else
      collectTranscripts rs (interimTranscript ++ r.transcript, finalTranscript)

/-- Method `onRecognitionResult(event)`. -/
def onRecognitionResult (s : Controller) (event : ResultEvent) : Controller :=
  let acc := collectTranscripts (event.results.drop event.resultIndex) ([], [])
  let interimTranscript := acc.1
  let finalTranscript := acc.2
  let cursorPos := s.textOutput.selectionStart
  let currentText := s.textOutput.value
  let s1 :=
    if truthy finalTranscript then
      let beforeCursor := substring currentText 0 (some cursorPos)
      let afterCursor := substring currentText cursorPos none
      let s2 := { s with textOutput :=
        s.textOutput.setValue (beforeCursor ++ finalTranscript ++ afterCursor) }
      let newPos := cursorPos + finalTranscript.length
      let s3 := { s2 with textOutput := s2.textOutput.setSelectionRange newPos newPos }
      saveText s3
    else s
  if truthy interimTranscript then
    showStatus s1 (lit "Interim: " ++ dquote ++ interimTranscript ++ dquote) (lit "recording")
  else s1

/-- Method `onRecognitionStart()`. -/
def onRecognitionStart (s : Controller) : Controller :=
  let s1 := { s with isRecording := true }
  let s2 := { s1 with startBtn := { s1.startBtn with face := ButtonFace.stopRecording } }
  showStatus s2 (lit "Listening... Speak now!") (lit "recording")

/-- The `switch` of `onRecognitionError`: the message for an error code. -/
def errorMessage (error : JSString) : JSString :=
  if error = lit "no-speech" then lit "No speech detected. Please try again."
  else if error = lit "audio-capture" then lit "No microphone found or access denied."
  else if error = lit "not-allowed" then lit "Microphone permission denied."
  else if error = lit "network" then lit "Network error occurred."
  else if error = lit "service-not-allowed" then lit "Speech service not allowed."
  else lit "Recognition error: " ++ error

/-- Method `onRecognitionError(event)`, with `error` the code carried by the event. -/
def onRecognitionError (s : Controller) (error : JSString) : Controller :=
  showStatus s (errorMessage error) (lit "error")

/-- The end event: the session has ended, and `onRecognitionEnd()` runs. -/
def onRecognitionEnd (s : Controller) : Controller :=
  let s0 := { s with recognition := s.recognition.map Session.ended }
  let s1 := { s0 with isRecording := false }
  let s2 := { s1 with startBtn := { s1.startBtn with face := ButtonFace.startRecording } }
  if includes s2.status.textContent (lit "Interim:") ||
      s2.status.classListContains (lit "recording") then
    showStatus s2 (lit "Recording stopped") (lit "success")
  else s2

/-- Method `clearText()`. -/
def clearText (s : Controller) : Controller :=
  let s1 := { s with textOutput := s.textOutput.setValue [] }
  let s2 := { s1 with textOutput := s1.textOutput.focus }
  let s3 := saveText s2
  showStatus s3 (lit "Text cleared") (lit "success")

/-- The states of the microphone permission, as `startRecording` tests them. -/
inductive PermissionState where
  | granted
  | denied
  | prompt
  | unknown
  deriving DecidableEq, Repr

/-- What the platform does with the permission query: `navigator.permissions`
is missing, the query raises, or it answers with a state. -/
inductive PermissionQuery where
  | absent
  | raises
  | answers (state : PermissionState)
  deriving DecidableEq, Repr

/-- Method `checkMicrophonePermission()`. -/
def checkMicrophonePermission : PermissionQuery → PermissionState
  | PermissionQuery.answers state => state
  | PermissionQuery.absent => PermissionState.unknown
  | PermissionQuery.raises => PermissionState.unknown

/-- What `getUserMedia` does: it hands over a stream, or rejects with an error
carrying a `name` and a `message`. -/
inductive Acquisition where
  | stream
  | rejects (name message : JSString)
  deriving DecidableEq, Repr

/-- Method `showPermissionHelp()`: a fresh panel replaces the attached one, and a timer
is set to take the fresh one away. -/
def showPermissionHelp (s : Controller) : Controller :=
  let helpDiv := s.helpMade
  { s with help := some helpDiv, helpMade := s.helpMade + 1,
           timers := s.timers ++ [Timer.removeHelp helpDiv] }

/-- Method `handlePermissionError(error)`. -/
def handlePermissionError (s : Controller) (name message : JSString) : Controller :=
  if name = lit "NotAllowedError" then
    showStatus (showPermissionHelp s)
      (lit "Microphone blocked for this extension. See instructions below.") (lit "error")
  else if name = lit "NotFoundError" then
    showStatus s (lit "No microphone found. Please connect a microphone and try again.")
      (lit "error")
  else if name = lit "NotReadableError" then
    showStatus s (lit "Microphone is being used by another application.") (lit "error")
  else if name = lit "SecurityError" then
    showStatus (showPermissionHelp s)
      (lit "Extension needs microphone permission. See instructions below.") (lit "error")
  else
    showStatus (showPermissionHelp s) (lit "Microphone error: " ++ message) (lit "error")

/-- Method `requestMicrophonePermission()`: the returned flag and the state afterwards.
The acquired stream is released at once and leaves no trace in the state. -/
def requestMicrophonePermission (s : Controller) : Acquisition → Bool × Controller
  | Acquisition.stream => (true, s)
  | Acquisition.rejects name message => (false, handlePermissionError s name message)

/-- What the platform answers during one start attempt; `startError` is the
message of the exception a refused `start()` raises. -/
structure StartEnv where
  permission : PermissionQuery
  acquisition : Acquisition
  startError : JSString
  deriving DecidableEq, Repr

/-- The `try { this.recognition.start() } catch` block of `startRecording`. -/
def invokeStart (s : Controller) (startError : JSString) : Controller :=
  match s.recognition with
  | none => s
  | some r =>
    let res := r.start
    let s1 := { s with recognition := some res.2 }
    if res.1 then s1
    else showStatus s1 (lit "Error starting recording: " ++ startError) (lit "error")

/-- Method `startRecording()`.  One start attempt is one step: between its
`await`s the method reads no field of the controller, so the answers of the
platform are taken from `env` as the method reaches them. -/
def startRecording (s : Controller) (env : StartEnv) : Controller :=
  match s.recognition with
  | none => s
  | some _ =>
    let permissionState := checkMicrophonePermission env.permission
    if permissionState = PermissionState.denied then
      showPermissionHelp (showStatus s
        (lit "Microphone permission denied. Please enable it in browser settings.") (lit "error"))
    else if permissionState = PermissionState.prompt ∨
        permissionState = PermissionState.unknown then
      let s1 := showStatus s (lit "Requesting microphone permission...") (lit "")
      let res := requestMicrophonePermission s1 env.acquisition
      if !res.1 then res.2 else invokeStart res.2 env.startError
    else invokeStart s env.startError

/-- Method `stopRecording()`. -/
def stopRecording (s : Controller) : Controller :=
  match s.recognition with
  | some r => if s.isRecording then { s with recognition := some r.stop } else s
  | none => s

/-- Method `toggleRecording()`. -/
def toggleRecording (s : Controller) (env : StartEnv) : Controller :=
  if s.isRecording then stopRecording s else startRecording s env

/-- Method `loadSavedText()`; the callback of `chrome.storage.local.get` runs with the
stored value. -/
def loadSavedText (s : Controller) : Controller :=
  if s.storage.chromeAvailable then
    match s.storage.chromeLocal with
    | some speechText =>
      if truthy speechText then { s with textOutput := s.textOutput.setValue speechText } else s
    | none => s
  else
    match s.storage.localStorage with
    | some savedText =>
      if truthy savedText then { s with textOutput := s.textOutput.setValue savedText } else s
    | none => s

/-- Method `initializeRecognition()`; `supported` tells whether the window offers a
speech-recognition constructor. -/
def initializeRecognition (s : Controller) (supported : Bool) : Controller :=
  if supported then
    { s with recognition := some { running := false, begun := 0, startCalls := 0, stopCalls := 0 } }
  else
    let s1 := showStatus s (lit "Speech recognition not supported in this browser") (lit "error")
    { s1 with startBtn := { s1.startBtn with disabled := true } }

/-- What the constructor finds when the popup loads: the elements of the
document, whether speech recognition exists, and the stores. -/
structure Page where
  textOutput : TextArea
  startBtn : Button
  status : StatusElement
  supported : Bool
  storage : Storage
  deriving DecidableEq, Repr

/-- The constructor `new SpeechToText()`. -/
def construct (p : Page) : Controller :=
  let s0 : Controller :=
    { recognition := none, isRecording := false, textOutput := p.textOutput,
      startBtn := p.startBtn, status := p.status, help := none, helpMade := 0,
      timers := [], storage := p.storage }
  loadSavedText (initializeRecognition s0 p.supported)

/-- A popup page whose text area holds `value` with the caret at `caret`, with
empty stores, speech recognition present. -/
def pageWith (value : JSString) (caret : Nat) (chromeAvailable : Bool) : Page :=
  { textOutput := { rawValue := value, selectionStart := caret, selectionEnd := caret,
                    focused := false },
    startBtn := { face := ButtonFace.fromPage, disabled := false },
    status := { textContent := lit "Ready to record", className := lit "status" },
    supported := true,
    storage := { chromeAvailable := chromeAvailable, chromeLocal := none, localStorage := none } }

/-- The event of the worked example: index 0, a final segment and an interim one. -/
def helloEvent : ResultEvent :=
  { resultIndex := 0, results := [⟨lit "hello ", true⟩, ⟨lit "wor", false⟩] }

/-- The error codes a recognition error event can carry: the closed enumeration
of the platform. -/
inductive SpeechRecognitionErrorCode where
  | noSpeech
  | aborted
  | audioCapture
  | network
  | notAllowed
  | serviceNotAllowed
  | badGrammar
  | languageNotSupported
  | phrasesNotSupported
  deriving DecidableEq, Repr

/-- The string of an error code, as `event.error` holds it. -/
def SpeechRecognitionErrorCode.code : SpeechRecognitionErrorCode → JSString
  | noSpeech => lit "no-speech"
  | aborted => lit "aborted"
  | audioCapture => lit "audio-capture"
  | network => lit "network"
  | notAllowed => lit "not-allowed"
  | serviceNotAllowed => lit "service-not-allowed"
  | badGrammar => lit "bad-grammar"
  | languageNotSupported => lit "language-not-supported"
  | phrasesNotSupported => lit "phrases-not-supported"

/-! ## Notions used to state the properties -/

/-- The final fragment of an event: the in-order concatenation of (transcript
followed by one space) over the segments at index at least `resultIndex` that
are flagged final. -/
def finalFragment (event : ResultEvent) : JSString :=
  (((event.results.drop event.resultIndex).filter (fun r => r.isFinal)).map
    (fun r => r.transcript ++ space)).flatten

/-- The interim fragment of an event: the in-order concatenation of the
transcripts of the segments at index at least `resultIndex` not flagged final. -/
def interimFragment (event : ResultEvent) : JSString :=
  (((event.results.drop event.resultIndex).filter (fun r => !r.isFinal)).map
    (fun r => r.transcript)).flatten

/-- The text area after a final fragment `f` has been spliced in at the caret. -/
def spliced (t : TextArea) (f : JSString) : TextArea :=
  (t.setValue (substring t.value 0 (some t.selectionStart) ++ f ++
      substring t.value t.selectionStart none)).setSelectionRange
    (t.selectionStart + f.length) (t.selectionStart + f.length)

/-- The caret invariant: the caret offset lies within the buffer. -/
abbrev caretOk (s : Controller) : Prop :=
  s.textOutput.selectionStart ≤ s.textOutput.value.length

/-- The states the controller reaches from its construction on page `p` by its
own operations and the events delivered to it. -/
inductive Reachable (p : Page) : Controller → Prop where
  | construct : Reachable p (construct p)
  | result (s : Controller) (event : ResultEvent) :
      Reachable p s → Reachable p (onRecognitionResult s event)
  | clear (s : Controller) : Reachable p s → Reachable p (clearText s)
  | load (s : Controller) : Reachable p s → Reachable p (loadSavedText s)
  | started (s : Controller) : Reachable p s → Reachable p (onRecognitionStart s)
  | error (s : Controller) (e : JSString) :
      Reachable p s → Reachable p (onRecognitionError s e)
  | ended (s : Controller) : Reachable p s → Reachable p (onRecognitionEnd s)
  | toggle (s : Controller) (env : StartEnv) :
      Reachable p s → Reachable p (toggleRecording s env)
  | timer (s : Controller) (i : Nat) : Reachable p s → Reachable p (fireTimer s i)

/-- A sequence of result events delivered one after another, with nothing in
between. -/
def onRecognitionResults (s : Controller) (events : List ResultEvent) : Controller :=
  events.foldl onRecognitionResult s

/-- The number of `start()` invocations the session has received so far. -/
def startCallsOf (s : Controller) : Nat :=
  match s.recognition with
  | some r => r.startCalls
  | none => 0

/-! ## Basic facts -/

theorem normalizeNewlines_of_not_mem (v : JSString) (h : 13 ∉ v) : normalizeNewlines v = v := by
  induction v with
  | nil => rfl
  | cons c cs ih =>
    have hc : c ≠ 13 := fun e => h (by simp [e])
    have hcs : 13 ∉ cs := fun e => h (List.mem_cons_of_mem _ e)
    simp [normalizeNewlines, hc, ih hcs]

theorem not_mem_normalizeNewlines (v : JSString) : 13 ∉ normalizeNewlines v := by
  induction v with
  | nil => simp [normalizeNewlines]
  | cons c cs ih =>
    unfold normalizeNewlines
    split
    · split
      · exact ih
      · simpa using ih
    · next hc =>
      simp only [List.mem_cons, not_or]
      exact ⟨fun e => hc e.symm, ih⟩

theorem normalizeNewlines_idem (v : JSString) :
    normalizeNewlines (normalizeNewlines v) = normalizeNewlines v :=
  normalizeNewlines_of_not_mem _ (not_mem_normalizeNewlines v)

theorem TextArea.not_mem_value (t : TextArea) : 13 ∉ t.value :=
  not_mem_normalizeNewlines t.rawValue

theorem TextArea.setValue_value (t : TextArea) (v : JSString) :
    (t.setValue v).value = normalizeNewlines v := by
  unfold TextArea.setValue
  split <;> rfl

theorem TextArea.setSelectionRange_value (t : TextArea) (a b : Nat) :
    (t.setSelectionRange a b).value = t.value := rfl

theorem TextArea.setValue_caret (t : TextArea) (v : JSString)
    (h : t.selectionStart ≤ t.value.length) :
    (t.setValue v).selectionStart ≤ (t.setValue v).value.length := by
  rw [TextArea.setValue_value]
  unfold TextArea.setValue
  split
  · next e => rw [e]; exact h
  · exact Nat.le_refl _

theorem TextArea.setSelectionRange_caret (t : TextArea) (a b : Nat) :
    (t.setSelectionRange a b).selectionStart ≤ (t.setSelectionRange a b).value.length := by
  rw [TextArea.setSelectionRange_value]
  simp only [TextArea.setSelectionRange]
  omega

theorem substring_zero (t : JSString) (c : Nat) (h : c ≤ t.length) :
    substring t 0 (some c) = t.take c := by
  simp [substring, Nat.min_eq_left h]

theorem substring_from (t : JSString) (c : Nat) (h : c ≤ t.length) :
    substring t c none = t.drop c := by
  simp [substring, Nat.min_eq_left h, Nat.max_eq_right h]

theorem collectTranscripts_eq (rs : List SpeechRecognitionResult) (a b : JSString) :
    collectTranscripts rs (a, b) =
      (a ++ ((rs.filter (fun r => !r.isFinal)).map (fun r => r.transcript)).flatten,
       b ++ ((rs.filter (fun r => r.isFinal)).map (fun r => r.transcript ++ space)).flatten) := by
  induction rs generalizing a b with
  | nil => simp [collectTranscripts]
  | cons r rs ih =>
    cases hr : r.isFinal <;> simp [collectTranscripts, hr, ih]

theorem collectTranscripts_event (event : ResultEvent) :
    collectTranscripts (event.results.drop event.resultIndex) ([], []) =
      (interimFragment event, finalFragment event) := by
  simp [collectTranscripts_eq, interimFragment, finalFragment]

@[simp] theorem showStatus_textOutput (s : Controller) (m t : JSString) :
    (showStatus s m t).textOutput = s.textOutput := by
  unfold showStatus; split <;> rfl

@[simp] theorem showStatus_storage (s : Controller) (m t : JSString) :
    (showStatus s m t).storage = s.storage := by
  unfold showStatus; split <;> rfl

@[simp] theorem showStatus_status (s : Controller) (m t : JSString) :
    (showStatus s m t).status = { textContent := m, className := lit "status " ++ t } := by
  unfold showStatus; split <;> rfl

@[simp] theorem showStatus_isRecording (s : Controller) (m t : JSString) :
    (showStatus s m t).isRecording = s.isRecording := by
  unfold showStatus; split <;> rfl

@[simp] theorem showStatus_recognition (s : Controller) (m t : JSString) :
    (showStatus s m t).recognition = s.recognition := by
  unfold showStatus; split <;> rfl

@[simp] theorem showStatus_help (s : Controller) (m t : JSString) :
    (showStatus s m t).help = s.help := by
  unfold showStatus; split <;> rfl

@[simp] theorem persisted_showStatus (s : Controller) (m t : JSString) :
    persisted (showStatus s m t) = persisted s := by
  simp [persisted]

@[simp] theorem saveText_textOutput (s : Controller) : (saveText s).textOutput = s.textOutput := by
  unfold saveText; split <;> rfl

@[simp] theorem persisted_saveText (s : Controller) :
    persisted (saveText s) = some s.textOutput.value := by
  unfold persisted saveText; split <;> simp [*]

theorem onRecognitionResult_textOutput (s : Controller) (event : ResultEvent) :
    (onRecognitionResult s event).textOutput =
      if finalFragment event = [] then s.textOutput
      else spliced s.textOutput (finalFragment event) := by
  unfold onRecognitionResult
  simp only [collectTranscripts_event]
  by_cases hF : finalFragment event = []
  · simp [hF, truthy]; split <;> simp
  · simp [hF, truthy, spliced]; split <;> simp

theorem spliced_value (t : TextArea) (f : JSString) (hc : t.selectionStart ≤ t.value.length) :
    (spliced t f).value =
      normalizeNewlines (t.value.take t.selectionStart ++ f ++ t.value.drop t.selectionStart) := by
  unfold spliced
  rw [TextArea.setSelectionRange_value, TextArea.setValue_value, substring_zero _ _ hc,
    substring_from _ _ hc]

theorem spliced_selectionStart (t : TextArea) (f : JSString) :
    (spliced t f).selectionStart =
      min (t.selectionStart + f.length) (spliced t f).value.length := by
  unfold spliced
  rw [TextArea.setSelectionRange_value]
  simp [TextArea.setSelectionRange]

theorem spliced_plain (t : TextArea) (f : JSString) (hc : t.selectionStart ≤ t.value.length)
    (hf : 13 ∉ f) :
    (spliced t f).value = t.value.take t.selectionStart ++ f ++ t.value.drop t.selectionStart ∧
      (spliced t f).selectionStart = t.selectionStart + f.length := by
  have hv : (spliced t f).value =
      t.value.take t.selectionStart ++ f ++ t.value.drop t.selectionStart := by
    rw [spliced_value t f hc]
    apply normalizeNewlines_of_not_mem
    intro h
    rcases List.mem_append.1 h with h | h
    · rcases List.mem_append.1 h with h | h
      · exact TextArea.not_mem_value t (List.mem_of_mem_take h)
      · exact hf h
    · exact TextArea.not_mem_value t (List.mem_of_mem_drop h)
  refine ⟨hv, ?_⟩
  rw [spliced_selectionStart, hv]
  simp
  omega

theorem onRecognitionResult_persisted (s : Controller) (event : ResultEvent)
    (hF : finalFragment event ≠ []) :
    persisted (onRecognitionResult s event) =
      some (onRecognitionResult s event).textOutput.value := by
  unfold onRecognitionResult
  simp only [collectTranscripts_event]
  simp [hF, truthy]; split <;> simp

theorem onRecognitionResult_no_final (s : Controller) (event : ResultEvent)
    (hF : finalFragment event = []) :
    onRecognitionResult s event =
      if interimFragment event = [] then s
      else showStatus s (lit "Interim: " ++ dquote ++ interimFragment event ++ dquote)
        (lit "recording") := by
  unfold onRecognitionResult
  simp only [collectTranscripts_event]
  simp [hF, truthy]

theorem finalFragment_eq_nil (event : ResultEvent)
    (h : ∀ r ∈ event.results.drop event.resultIndex, r.isFinal = false) :
    finalFragment event = [] := by
  unfold finalFragment
  have : (event.results.drop event.resultIndex).filter (fun r => r.isFinal) = [] := by
    rw [List.filter_eq_nil_iff]
    intro r hr
    simp [h r hr]
  simp [this]

@[simp] theorem saveText_status (s : Controller) : (saveText s).status = s.status := by
  unfold saveText; split <;> rfl

theorem onRecognitionResult_status (s : Controller) (event : ResultEvent) :
    (onRecognitionResult s event).status =
      if interimFragment event = [] then s.status
      else { textContent := lit "Interim: " ++ dquote ++ interimFragment event ++ dquote,
             className := lit "status " ++ lit "recording" } := by
  unfold onRecognitionResult
  simp only [collectTranscripts_event]
  by_cases hI : interimFragment event = [] <;> by_cases hF : finalFragment event = [] <;>
    simp [hI, hF, truthy]

@[simp] theorem showPermissionHelp_recognition (s : Controller) :
    (showPermissionHelp s).recognition = s.recognition := rfl

@[simp] theorem handlePermissionError_recognition (s : Controller) (n m : JSString) :
    (handlePermissionError s n m).recognition = s.recognition := by
  unfold handlePermissionError
  repeat' split
  all_goals simp

@[simp] theorem showStatus_helpMade (s : Controller) (m t : JSString) :
    (showStatus s m t).helpMade = s.helpMade := by
  unfold showStatus; split <;> rfl

@[simp] theorem class_error : lit "status " ++ lit "error" = lit "status error" := by decide

@[simp] theorem class_recording : lit "status " ++ lit "recording" = lit "status recording" := by
  decide

theorem invokeStart_recognition (s : Controller) (e : JSString) (r : Session)
    (h : s.recognition = some r) : (invokeStart s e).recognition = some r.start.2 := by
  unfold invokeStart
  rw [h]
  simp only
  split <;> simp

theorem startCallsOf_invokeStart (s : Controller) (e : JSString) (r : Session)
    (h : s.recognition = some r) : startCallsOf (invokeStart s e) = r.startCalls + 1 := by
  unfold startCallsOf
  rw [invokeStart_recognition s e r h]
  simp only [Session.start]
  cases r.running <;> rfl

theorem persisted_congr (s1 s2 : Controller) (h : s1.storage = s2.storage) :
    persisted s1 = persisted s2 := by
  unfold persisted; rw [h]

@[simp] theorem initializeRecognition_textOutput (s : Controller) (b : Bool) :
    (initializeRecognition s b).textOutput = s.textOutput := by
  unfold initializeRecognition; cases b <;> simp

@[simp] theorem initializeRecognition_storage (s : Controller) (b : Bool) :
    (initializeRecognition s b).storage = s.storage := by
  unfold initializeRecognition; cases b <;> simp

theorem loadSavedText_textOutput (s : Controller) :
    (loadSavedText s).textOutput =
      match persisted s with
      | some v => if v = [] then s.textOutput else s.textOutput.setValue v
      | none => s.textOutput := by
  unfold loadSavedText persisted
  cases s.storage.chromeAvailable
  · cases s.storage.localStorage with
    | none => simp
    | some v => by_cases hv : v = [] <;> simp [truthy, hv]
  · cases s.storage.chromeLocal with
    | none => simp
    | some v => by_cases hv : v = [] <;> simp [truthy, hv]

theorem loadSavedText_value (s : Controller) :
    (loadSavedText s).textOutput.value =
      match persisted s with
      | some v => if v = [] then s.textOutput.value else normalizeNewlines v
      | none => s.textOutput.value := by
  rw [loadSavedText_textOutput]
  cases persisted s with
  | none => rfl
  | some v => by_cases hv : v = [] <;> simp [hv, TextArea.setValue_value]

theorem includes_recognition_error (e : JSString) :
    includes (lit "Recognition error: " ++ e) (lit "Interim:") = includes e (lit "Interim:") := by
  have hl : lit "Recognition error: " =
      [82, 101, 99, 111, 103, 110, 105, 116, 105, 111, 110, 32, 101, 114, 114, 111, 114, 58, 32] := by
    decide
  have hp : lit "Interim:" = [73, 110, 116, 101, 114, 105, 109, 58] := by decide
  rw [hl, hp]
  simp [includes, List.isPrefixOf]

theorem includes_errorMessage (e : JSString) (h : includes e (lit "Interim:") = false) :
    includes (errorMessage e) (lit "Interim:") = false := by
  unfold errorMessage
  repeat' split
  · decide
  · decide
  · decide
  · decide
  · decide
  · rw [includes_recognition_error, h]

theorem caretOk_onRecognitionResult (s : Controller) (event : ResultEvent) (h : caretOk s) :
    caretOk (onRecognitionResult s event) := by
  unfold caretOk
  rw [onRecognitionResult_textOutput]
  split
  · exact h
  · exact TextArea.setSelectionRange_caret _ _ _

theorem caretOk_clearText (s : Controller) (h : caretOk s) : caretOk (clearText s) := by
  unfold caretOk clearText
  simp only [showStatus_textOutput, saveText_textOutput, TextArea.focus]
  exact TextArea.setValue_caret _ _ h

theorem caretOk_loadSavedText (s : Controller) (h : caretOk s) : caretOk (loadSavedText s) := by
  unfold caretOk
  rw [loadSavedText_textOutput]
  cases persisted s with
  | none => exact h
  | some v =>
    simp only
    split
    · exact h
    · exact TextArea.setValue_caret _ _ h

@[simp] theorem showPermissionHelp_textOutput (s : Controller) :
    (showPermissionHelp s).textOutput = s.textOutput := rfl

@[simp] theorem handlePermissionError_textOutput (s : Controller) (n m : JSString) :
    (handlePermissionError s n m).textOutput = s.textOutput := by
  unfold handlePermissionError
  repeat' split
  all_goals simp

@[simp] theorem invokeStart_textOutput (s : Controller) (e : JSString) :
    (invokeStart s e).textOutput = s.textOutput := by
  unfold invokeStart
  cases s.recognition with
  | none => rfl
  | some r =>
    simp only
    split <;> simp

theorem toggleRecording_textOutput (s : Controller) (env : StartEnv) :
    (toggleRecording s env).textOutput = s.textOutput := by
  unfold toggleRecording stopRecording startRecording
  cases s.recognition with
  | none => simp
  | some r =>
    cases s.isRecording
    · simp only [Bool.false_eq_true, if_false]
      cases checkMicrophonePermission env.permission <;>
        cases env.acquisition <;> simp [requestMicrophonePermission]
    · simp

theorem fireTimer_textOutput (s : Controller) (i : Nat) :
    (fireTimer s i).textOutput = s.textOutput := by
  unfold fireTimer
  cases s.timers.get? i with
  | none => rfl
  | some t =>
    cases t with
    | revertStatus m => simp only [runTimer]; split <;> rfl
    | removeHelp d => simp only [runTimer]; split <;> rfl

theorem onRecognitionResult_splice (s : Controller) (event : ResultEvent)
    (hc : s.textOutput.selectionStart ≤ s.textOutput.value.length)
    (hf : 13 ∉ finalFragment event) :
    (onRecognitionResult s event).textOutput.value =
        s.textOutput.value.take s.textOutput.selectionStart ++ finalFragment event ++
          s.textOutput.value.drop s.textOutput.selectionStart ∧
      (onRecognitionResult s event).textOutput.selectionStart =
        s.textOutput.selectionStart + (finalFragment event).length := by
  rw [onRecognitionResult_textOutput]
  split
  · next h => simp [h]
  · exact spliced_plain _ _ hc hf

@[simp] theorem invokeStart_isRecording (s : Controller) (e : JSString) :
    (invokeStart s e).isRecording = s.isRecording := by
  unfold invokeStart
  cases s.recognition with
  | none => rfl
  | some r =>
    simp only
    split <;> simp

theorem toggleRecording_idle_granted (s : Controller) (env : StartEnv) (r : Session)
    (hr : s.recognition = some r) (hidle : s.isRecording = false)
    (hperm : checkMicrophonePermission env.permission = PermissionState.granted) :
    toggleRecording s env = invokeStart s env.startError := by
  unfold toggleRecording startRecording
  simp [hidle, hr, hperm]

theorem invokeStart_refused (s : Controller) (e : JSString) (r : Session)
    (hr : s.recognition = some r) (hrun : r.running = true) :
    (invokeStart s e).status =
      { textContent := lit "Error starting recording: " ++ e,
        className := lit "status error" } := by
  unfold invokeStart
  rw [hr]
  simp [Session.start, hrun]

theorem onRecognitionEnd_keeps_error (s : Controller) (e : JSString)
    (h : includes e (lit "Interim:") = false) :
    (onRecognitionEnd (onRecognitionError s e)).isRecording = false ∧
      (onRecognitionEnd (onRecognitionError s e)).status =
        { textContent := errorMessage e, className := lit "status error" } := by
  have hm := includes_errorMessage e h
  constructor
  · unfold onRecognitionEnd
    simp only
    split <;> simp
  · unfold onRecognitionEnd
    simp only [onRecognitionError, showStatus_status, class_error, hm,
      StatusElement.classListContains]
    rw [if_neg (by decide)]

theorem revertStatus_other_message (s : Controller) (m1 t1 m2 t2 : JSString) (hne : m1 ≠ m2) :
    (runTimer (showStatus (showStatus s m1 t1) m2 t2) (Timer.revertStatus m1)).status =
      { textContent := m2, className := lit "status " ++ t2 } := by
  simp [runTimer, Ne.symm hne]

theorem showStatus_recording_timers (s : Controller) (m : JSString) :
    (showStatus s m (lit "recording")).timers = s.timers := by
  simp [showStatus]

/-! ## The claims -/

/-- C1, as stated, fails when a final transcript holds a carriage return: on
the buffer "xy" with the caret at 1, the event whose one final segment is a
carriage return followed by a line feed leaves a buffer of four code units,
"x", line feed, space, "y", and not the five of "x" + F + "y". -/
theorem final_splice_fails_on_carriage_return :
    finalFragment { resultIndex := 0, results := [⟨[13, 10], true⟩] } = [13, 10, 32] ∧
      (construct (pageWith (lit "xy") 1 true)).textOutput.value = lit "xy" ∧
      (construct (pageWith (lit "xy") 1 true)).textOutput.selectionStart = 1 ∧
      (onRecognitionResult (construct (pageWith (lit "xy") 1 true))
          { resultIndex := 0, results := [⟨[13, 10], true⟩] }).textOutput.value =
        [120, 10, 32, 121] ∧
      (onRecognitionResult (construct (pageWith (lit "xy") 1 true))
          { resultIndex := 0, results := [⟨[13, 10], true⟩] }).textOutput.value ≠
        (lit "xy").take 1 ++ [13, 10, 32] ++ (lit "xy").drop 1 ∧
      (onRecognitionResult (construct (pageWith (lit "xy") 1 true))
          { resultIndex := 0, results := [⟨[13, 10], true⟩] }).textOutput.value.length = 4 := by
  decide

/-- C1, amended: for every result event and every buffer with caret offset `c`
within the text, if the final fragment `F` of the event is non-empty then after
`onRecognitionResult` the buffer is (text before `c`) + `F` + (text from `c`
on) with its line breaks normalised by the text area, the caret offset is
`c + length F` capped at the new length, and the persisted value is the new
buffer; when `F` holds no carriage return the buffer is exactly (text before
`c`) + `F` + (text from `c` on) and the caret offset is exactly
`c + length F`. -/
theorem onRecognitionResult_final_splice (s : Controller) (event : ResultEvent)
    (hc : s.textOutput.selectionStart ≤ s.textOutput.value.length)
    (hF : finalFragment event ≠ []) :
    (onRecognitionResult s event).textOutput.value =
        normalizeNewlines (s.textOutput.value.take s.textOutput.selectionStart ++
          finalFragment event ++ s.textOutput.value.drop s.textOutput.selectionStart) ∧
      (onRecognitionResult s event).textOutput.selectionStart =
        min (s.textOutput.selectionStart + (finalFragment event).length)
          (onRecognitionResult s event).textOutput.value.length ∧
      persisted (onRecognitionResult s event) =
        some (onRecognitionResult s event).textOutput.value ∧
      (13 ∉ finalFragment event →
        (onRecognitionResult s event).textOutput.value =
            s.textOutput.value.take s.textOutput.selectionStart ++ finalFragment event ++
              s.textOutput.value.drop s.textOutput.selectionStart ∧
          (onRecognitionResult s event).textOutput.selectionStart =
            s.textOutput.selectionStart + (finalFragment event).length) := by
  refine ⟨?_, ?_, onRecognitionResult_persisted s event hF,
    fun hf => onRecognitionResult_splice s event hc hf⟩
  · rw [onRecognitionResult_textOutput, if_neg hF, spliced_value _ _ hc]
  · rw [onRecognitionResult_textOutput, if_neg hF, spliced_selectionStart]

/-- C1, amended, at the buffer "ab" with the caret between the two letters. -/
theorem onRecognitionResult_final_splice_witness :
    (onRecognitionResult (construct (pageWith (lit "ab") 1 true)) helloEvent).textOutput.value =
        lit "ahello  b" ∧
      (onRecognitionResult (construct (pageWith (lit "ab") 1 true)) helloEvent).textOutput.selectionStart
        = 8 ∧
      persisted (onRecognitionResult (construct (pageWith (lit "ab") 1 true)) helloEvent) =
        some (lit "ahello  b") := by
  have h := onRecognitionResult_final_splice (construct (pageWith (lit "ab") 1 true)) helloEvent
    (by decide) (by decide)
  have h4 := h.2.2.2 (by decide)
  refine ⟨?_, ?_, ?_⟩
  · rw [h4.1]; decide
  · rw [h4.2]; decide
  · rw [h.2.2.1, h4.1]; decide

/-- C2: for every result event with no final segment at index at least
`resultIndex`, `onRecognitionResult` leaves the buffer, the caret and the
persisted value unchanged; the state is untouched when the interim text is
empty, and otherwise the only change is the status, which becomes
`Interim: "<interim text>"` with category recording. -/
theorem onRecognitionResult_interim_only (s : Controller) (event : ResultEvent)
    (h : ∀ r ∈ event.results.drop event.resultIndex, r.isFinal = false) :
    (onRecognitionResult s event).textOutput = s.textOutput ∧
      persisted (onRecognitionResult s event) = persisted s ∧
      (onRecognitionResult s event).storage = s.storage ∧
      onRecognitionResult s event =
        if interimFragment event = [] then s
        else { s with status :=
          { textContent := lit "Interim: " ++ dquote ++ interimFragment event ++ dquote,
            className := lit "status recording" } } := by
  have hF := finalFragment_eq_nil event h
  rw [onRecognitionResult_no_final s event hF]
  by_cases hI : interimFragment event = []
  · simp [hI]
  · simp only [if_neg hI, showStatus_textOutput, persisted_showStatus, showStatus_storage,
      true_and]
    simp [showStatus]

/-- C2 at an event holding one interim segment. -/
theorem onRecognitionResult_interim_only_witness :
    (onRecognitionResult (construct (pageWith (lit "ab") 1 true))
        { resultIndex := 0, results := [⟨lit "wor", false⟩] }).textOutput =
      (construct (pageWith (lit "ab") 1 true)).textOutput ∧
    (onRecognitionResult (construct (pageWith (lit "ab") 1 true))
        { resultIndex := 0, results := [⟨lit "wor", false⟩] }).status.textContent =
      lit "Interim: " ++ dquote ++ lit "wor" ++ dquote := by
  have h := onRecognitionResult_interim_only (construct (pageWith (lit "ab") 1 true))
    { resultIndex := 0, results := [⟨lit "wor", false⟩] } (by decide)
  refine ⟨h.1, ?_⟩
  rw [h.2.2.2]
  decide

/-- C3, as stated, fails: on the event with segments ("hello ", final) and
("wor", interim) the empty buffer does not become the six characters "hello "
and the caret does not stop at 6. -/
theorem hello_example_as_stated_fails :
    (onRecognitionResult (construct (pageWith [] 0 true)) helloEvent).textOutput.value ≠
        lit "hello " ∧
      (onRecognitionResult (construct (pageWith [] 0 true)) helloEvent).textOutput.selectionStart
        ≠ 6 := by
  decide

/-- C3, amended: on the event with resultIndex 0 and segments ("hello ", final)
and ("wor", interim), an empty buffer with the caret at 0 becomes "hello "
followed by one more space (seven characters), the caret offset becomes 7, and
the status is `Interim: "wor"` with category recording. -/
theorem hello_example (s : Controller) (hv : s.textOutput.value = [])
    (hc : s.textOutput.selectionStart = 0) :
    (onRecognitionResult s helloEvent).textOutput.value = lit "hello " ++ space ∧
      (onRecognitionResult s helloEvent).textOutput.value.length = 7 ∧
      (onRecognitionResult s helloEvent).textOutput.selectionStart = 7 ∧
      (onRecognitionResult s helloEvent).status =
        { textContent := lit "Interim: " ++ dquote ++ lit "wor" ++ dquote,
          className := lit "status recording" } := by
  have hF : finalFragment helloEvent = lit "hello " ++ space := by decide
  have h := onRecognitionResult_splice s helloEvent (by simp [hc]) (by decide)
  have h1 : (onRecognitionResult s helloEvent).textOutput.value = lit "hello " ++ space := by
    rw [h.1, hv, hc, hF]; rfl
  refine ⟨h1, ?_, ?_, ?_⟩
  · rw [h1]; decide
  · rw [h.2, hc, hF]; decide
  · have hI : interimFragment helloEvent = lit "wor" := by decide
    rw [onRecognitionResult_status, hI, if_neg (by decide)]
    decide

/-- C3, amended, at the freshly constructed controller of an empty page. -/
theorem hello_example_witness :
    (onRecognitionResult (construct (pageWith [] 0 true)) helloEvent).textOutput.value =
        lit "hello " ++ space ∧
      (onRecognitionResult (construct (pageWith [] 0 true)) helloEvent).textOutput.selectionStart
        = 7 :=
  have h := hello_example (construct (pageWith [] 0 true)) (by decide) (by decide)
  ⟨h.1, h.2.2.1⟩

/-- C4: for every start attempt on a controller that has a recognition session,
`start()` is invoked (exactly once) if and only if the permission query
answers granted, or the state is prompt or unknown (the query answers prompt
or unknown, is missing, or raises) and the microphone acquisition succeeds.
When the query answers denied `start()` is not invoked, the error status is
shown and the help panel is attached; when it answers prompt and the
acquisition succeeds the status is first set to "Requesting microphone
permission..." and `start()` is invoked on the state so obtained. -/
theorem startRecording_start_iff (s : Controller) (env : StartEnv) (r : Session)
    (hr : s.recognition = some r) :
    (startCallsOf (startRecording s env) = startCallsOf s + 1 ↔
        (env.permission = PermissionQuery.answers PermissionState.granted ∨
          ((env.permission = PermissionQuery.answers PermissionState.prompt ∨
              env.permission = PermissionQuery.answers PermissionState.unknown ∨
              env.permission = PermissionQuery.absent ∨
              env.permission = PermissionQuery.raises) ∧
            env.acquisition = Acquisition.stream))) ∧
      (startCallsOf (startRecording s env) = startCallsOf s ∨
        startCallsOf (startRecording s env) = startCallsOf s + 1) ∧
      (env.permission = PermissionQuery.answers PermissionState.denied →
        (startRecording s env).recognition = s.recognition ∧
        startCallsOf (startRecording s env) = startCallsOf s ∧
        (startRecording s env).status =
          { textContent :=
              lit "Microphone permission denied. Please enable it in browser settings.",
            className := lit "status error" } ∧
        (startRecording s env).help = some s.helpMade) ∧
      (env.permission = PermissionQuery.answers PermissionState.prompt →
        env.acquisition = Acquisition.stream →
        (showStatus s (lit "Requesting microphone permission...") (lit "")).status =
          { textContent := lit "Requesting microphone permission...",
            className := lit "status " } ∧
        startRecording s env =
          invokeStart (showStatus s (lit "Requesting microphone permission...") (lit ""))
            env.startError ∧
        startCallsOf (startRecording s env) = startCallsOf s + 1) := by
  have h0 : startCallsOf s = r.startCalls := by simp [startCallsOf, hr]
  have hg := startCallsOf_invokeStart s env.startError r hr
  have hq := startCallsOf_invokeStart
    (showStatus s (lit "Requesting microphone permission...") (lit "")) env.startError r
    (by simp [hr])
  unfold startRecording
  rw [hr]
  simp only
  cases hp : env.permission with
  | absent =>
    cases ha : env.acquisition with
    | stream => simp [checkMicrophonePermission, requestMicrophonePermission, h0, hq]
    | rejects n m =>
      simp [checkMicrophonePermission, requestMicrophonePermission, startCallsOf, hr]
  | raises =>
    cases ha : env.acquisition with
    | stream => simp [checkMicrophonePermission, requestMicrophonePermission, h0, hq]
    | rejects n m =>
      simp [checkMicrophonePermission, requestMicrophonePermission, startCallsOf, hr]
  | answers st =>
    cases st with
    | granted => simp [checkMicrophonePermission, hg, h0]
    | denied => simp [checkMicrophonePermission, showPermissionHelp, startCallsOf, hr]
    | prompt =>
      cases ha : env.acquisition with
      | stream =>
        have hcls : lit "status " ++ lit "" = lit "status " := by decide
        simp [checkMicrophonePermission, requestMicrophonePermission, h0, hq, hcls]
      | rejects n m =>
        simp [checkMicrophonePermission, requestMicrophonePermission, startCallsOf, hr]
    | unknown =>
      cases ha : env.acquisition with
      | stream => simp [checkMicrophonePermission, requestMicrophonePermission, h0, hq]
      | rejects n m =>
        simp [checkMicrophonePermission, requestMicrophonePermission, startCallsOf, hr]

/-- C4 at a fresh controller, the query answering prompt, acquisition succeeding. -/
theorem startRecording_start_iff_witness :
    startCallsOf (startRecording (construct (pageWith [] 0 true))
        { permission := PermissionQuery.answers PermissionState.prompt,
          acquisition := Acquisition.stream, startError := [] }) =
      startCallsOf (construct (pageWith [] 0 true)) + 1 :=
  (startRecording_start_iff (construct (pageWith [] 0 true))
      { permission := PermissionQuery.answers PermissionState.prompt,
        acquisition := Acquisition.stream, startError := [] }
      { running := false, begun := 0, startCalls := 0, stopCalls := 0 } (by decide)).1.2
    (Or.inr ⟨Or.inl rfl, rfl⟩)

/-- C5: persistence round trip.  For every string V held by the buffer when
`saveText` runs (the empty string included), a controller constructed
afterwards over the same stores, on a popup page whose text area starts empty,
has the initial buffer content V; this holds for the primary store and for
the fallback store, whichever `saveText` wrote to. -/
theorem persistence_round_trip (s : Controller) (p : Page)
    (hstore : p.storage = (saveText s).storage)
    (hpage : p.textOutput.value = []) :
    (construct p).textOutput.value = s.textOutput.value := by
  have hp : persisted (initializeRecognition
      { recognition := none, isRecording := false, textOutput := p.textOutput,
        startBtn := p.startBtn, status := p.status, help := none, helpMade := 0,
        timers := [], storage := p.storage } p.supported) = some s.textOutput.value := by
    rw [← persisted_saveText s]
    exact persisted_congr _ _ (by rw [initializeRecognition_storage]; exact hstore)
  unfold construct
  rw [loadSavedText_value, hp, initializeRecognition_textOutput]
  simp only
  split
  · next hv => rw [hpage, hv]
  · exact normalizeNewlines_of_not_mem _ (TextArea.not_mem_value _)

/-- C5 at the empty buffer saved to the fallback store and at the buffer "ab"
saved to the primary store. -/
theorem persistence_round_trip_witness :
    (construct { pageWith [] 0 false with
        storage := (saveText (clearText (construct (pageWith (lit "ab") 0 false)))).storage
        }).textOutput.value = [] ∧
      (construct { pageWith [] 0 true with
        storage := (saveText (construct (pageWith (lit "ab") 0 true))).storage
        }).textOutput.value = lit "ab" :=
  ⟨persistence_round_trip (clearText (construct (pageWith (lit "ab") 0 false)))
      { pageWith [] 0 false with
        storage := (saveText (clearText (construct (pageWith (lit "ab") 0 false)))).storage }
      rfl (by decide),
   persistence_round_trip (construct (pageWith (lit "ab") 0 true))
      { pageWith [] 0 true with
        storage := (saveText (construct (pageWith (lit "ab") 0 true))).storage }
      rfl (by decide)⟩

/-- C6: for every error code `e`, `onRecognitionError` sets the status category
to error and the message to the table entry for `e` (the five listed codes have
their own message, any other code gives "Recognition error: " followed by the
code); and for every code `c` a recognition error event can carry, when
`onRecognitionEnd` follows before any timer fires the recording state is Idle
and that error status is still shown, not replaced by "Recording stopped". -/
theorem onRecognitionError_then_end (s : Controller) :
    (∀ e : JSString, (onRecognitionError s e).status =
        { textContent := errorMessage e, className := lit "status error" }) ∧
      errorMessage (lit "no-speech") = lit "No speech detected. Please try again." ∧
      errorMessage (lit "audio-capture") = lit "No microphone found or access denied." ∧
      errorMessage (lit "not-allowed") = lit "Microphone permission denied." ∧
      errorMessage (lit "network") = lit "Network error occurred." ∧
      errorMessage (lit "service-not-allowed") = lit "Speech service not allowed." ∧
      (∀ e : JSString, e ≠ lit "no-speech" → e ≠ lit "audio-capture" → e ≠ lit "not-allowed" →
        e ≠ lit "network" → e ≠ lit "service-not-allowed" →
        errorMessage e = lit "Recognition error: " ++ e) ∧
      (∀ c : SpeechRecognitionErrorCode,
        (onRecognitionEnd (onRecognitionError s c.code)).isRecording = false ∧
        (onRecognitionEnd (onRecognitionError s c.code)).status =
          { textContent := errorMessage c.code, className := lit "status error" } ∧
        (onRecognitionEnd (onRecognitionError s c.code)).status.textContent ≠
          lit "Recording stopped") := by
  refine ⟨fun e => by simp [onRecognitionError], by decide, by decide, by decide, by decide,
    by decide, ?_, ?_⟩
  · intro e h1 h2 h3 h4 h5
    simp [errorMessage, h1, h2, h3, h4, h5]
  · intro c
    have hc : includes c.code (lit "Interim:") = false := by cases c <;> decide
    have hst := (onRecognitionEnd_keeps_error s c.code hc).2
    refine ⟨(onRecognitionEnd_keeps_error s c.code hc).1, hst, ?_⟩
    rw [hst]
    cases c <;> decide

/-- C6 at the error code "no-speech" on a fresh controller. -/
theorem onRecognitionError_then_end_witness :
    (onRecognitionEnd (onRecognitionError (construct (pageWith [] 0 true))
        (lit "no-speech"))).status =
      { textContent := lit "No speech detected. Please try again.",
        className := lit "status error" } :=
  ((onRecognitionError_then_end (construct (pageWith [] 0 true))).2.2.2.2.2.2.2
    SpeechRecognitionErrorCode.noSpeech).2.1

/-- C7 at two `clearText` actions within the delay: both show "Text cleared",
each schedules a revert timer for that message, and when the timer of the
first call fires after the second call its guard finds the message equal and
replaces the status set by the second call by "Ready to record". -/
theorem stale_timer_reverts_same_message :
    (clearText (clearText (construct (pageWith [] 0 true)))).status =
        { textContent := lit "Text cleared", className := lit "status success" } ∧
      (clearText (clearText (construct (pageWith [] 0 true)))).timers =
        [Timer.revertStatus (lit "Text cleared"), Timer.revertStatus (lit "Text cleared")] ∧
      (clearText (construct (pageWith [] 0 true))).timers =
        [Timer.revertStatus (lit "Text cleared")] ∧
      (fireTimer (clearText (clearText (construct (pageWith [] 0 true)))) 0).status =
        { textContent := lit "Ready to record", className := lit "status" } ∧
      (fireTimer (clearText (clearText (construct (pageWith [] 0 true)))) 0).timers =
        [Timer.revertStatus (lit "Text cleared")] := by
  decide

/-- C8: on a page whose text area starts with its caret inside its text, every
state reachable from construction by the operations of the controller has its
caret offset within [0, length of the buffer], and each buffer-mutating
operation (`onRecognitionResult`, `clearText`, `loadSavedText`) preserves
that. -/
theorem caret_invariant (p : Page)
    (hp : p.textOutput.selectionStart ≤ p.textOutput.value.length) :
    (∀ s, Reachable p s → caretOk s) ∧
      (∀ s event, caretOk s → caretOk (onRecognitionResult s event)) ∧
      (∀ s, caretOk s → caretOk (clearText s)) ∧
      (∀ s, caretOk s → caretOk (loadSavedText s)) := by
  refine ⟨?_, caretOk_onRecognitionResult, caretOk_clearText, caretOk_loadSavedText⟩
  intro s hs
  induction hs with
  | construct =>
    apply caretOk_loadSavedText
    simpa [caretOk] using hp
  | result s event _ ih => exact caretOk_onRecognitionResult s event ih
  | clear s _ ih => exact caretOk_clearText s ih
  | load s _ ih => exact caretOk_loadSavedText s ih
  | started s _ ih => simpa [caretOk, onRecognitionStart] using ih
  | error s e _ ih => simpa [caretOk, onRecognitionError] using ih
  | ended s _ ih =>
    unfold caretOk onRecognitionEnd
    simp only
    split <;> simpa [caretOk] using ih
  | toggle s env _ ih =>
    unfold caretOk
    rw [toggleRecording_textOutput]
    exact ih
  | timer s i _ ih =>
    unfold caretOk
    rw [fireTimer_textOutput]
    exact ih

/-- C8 at the page holding "ab" with the caret after the first letter: the state
after a result event and a clear. -/
theorem caret_invariant_witness :
    caretOk (clearText (onRecognitionResult (construct (pageWith (lit "ab") 1 true)) helloEvent)) :=
  (caret_invariant (pageWith (lit "ab") 1 true) (by decide)).1 _
    (Reachable.clear _ (Reachable.result _ helloEvent Reachable.construct))

/-- C9, as stated, fails when a final transcript holds a carriage return: on
the buffer "xy" with the caret at 1, after an event with the final transcript
"a", carriage return, line feed, "b" the caret stands at the end of the
buffer, so the fragment "Z " of the next event lands behind the old tail "y"
and not before it. -/
theorem sequential_splice_fails_on_carriage_return :
    (onRecognitionResults (construct (pageWith (lit "xy") 1 true))
        [{ resultIndex := 0, results := [⟨[97, 13, 10, 98], true⟩] },
         { resultIndex := 0, results := [⟨lit "Z", true⟩] }]).textOutput.value =
        lit "xa" ++ [10] ++ lit "b yZ " ∧
      (onRecognitionResults (construct (pageWith (lit "xy") 1 true))
        [{ resultIndex := 0, results := [⟨[97, 13, 10, 98], true⟩] },
         { resultIndex := 0, results := [⟨lit "Z", true⟩] }]).textOutput.value ≠
        lit "x" ++ ([97, 13, 10, 98, 32] ++ lit "Z ") ++ lit "y" ∧
      (onRecognitionResults (construct (pageWith (lit "xy") 1 true))
        [{ resultIndex := 0, results := [⟨[97, 13, 10, 98], true⟩] },
         { resultIndex := 0, results := [⟨lit "Z", true⟩] }]).textOutput.value ≠
        lit "x" ++ ([97, 10, 98, 32] ++ lit "Z ") ++ lit "y" := by
  decide

/-- C9, amended: for every initial buffer B with caret offset c0 (within B) and
every finite sequence of result events whose final fragments F1..Fn hold no
carriage return, applied one after another by `onRecognitionResult`, the final
buffer is B[0..c0) + F1 + ... + Fn + B[c0..] and the caret ends at
c0 + length(F1) + ... + length(Fn). -/
theorem sequential_results_splice (s : Controller) (events : List ResultEvent)
    (hc : s.textOutput.selectionStart ≤ s.textOutput.value.length)
    (hcr : ∀ e ∈ events, 13 ∉ finalFragment e) :
    (onRecognitionResults s events).textOutput.value =
        s.textOutput.value.take s.textOutput.selectionStart ++
          (events.map finalFragment).flatten ++
          s.textOutput.value.drop s.textOutput.selectionStart ∧
      (onRecognitionResults s events).textOutput.selectionStart =
        s.textOutput.selectionStart + (events.map (fun e => (finalFragment e).length)).sum := by
  induction events generalizing s with
  | nil => simp [onRecognitionResults]
  | cons e es ih =>
    obtain ⟨hv, hs⟩ := onRecognitionResult_splice s e hc (hcr e (List.mem_cons_self _ _))
    have hc1 : (onRecognitionResult s e).textOutput.selectionStart ≤
        (onRecognitionResult s e).textOutput.value.length := by
      rw [hv, hs]; simp; omega
    obtain ⟨ihv, ihs⟩ := ih (onRecognitionResult s e) hc1
      (fun e1 h1 => hcr e1 (List.mem_cons_of_mem _ h1))
    have hlen : (s.textOutput.value.take s.textOutput.selectionStart).length =
        s.textOutput.selectionStart := by
      simp [Nat.min_eq_left hc]
    have htake : ((onRecognitionResult s e).textOutput.value).take
        (onRecognitionResult s e).textOutput.selectionStart =
        s.textOutput.value.take s.textOutput.selectionStart ++ finalFragment e := by
      rw [hv, hs]
      apply List.take_left'
      simp [hlen]
    have hdrop : ((onRecognitionResult s e).textOutput.value).drop
        (onRecognitionResult s e).textOutput.selectionStart =
        s.textOutput.value.drop s.textOutput.selectionStart := by
      rw [hv, hs]
      apply List.drop_left'
      simp [hlen]
    have hstep : onRecognitionResults s (e :: es) =
        onRecognitionResults (onRecognitionResult s e) es := rfl
    rw [hstep, ihv, ihs, htake, hdrop, hs]
    constructor
    · simp [List.append_assoc]
    · simp; omega

/-- C9, amended, at the buffer "ab" with the caret after the first letter, the
event of the worked example being delivered twice. -/
theorem sequential_results_splice_witness :
    (onRecognitionResults (construct (pageWith (lit "ab") 1 true))
        [helloEvent, helloEvent]).textOutput.value = lit "ahello  hello  b" ∧
      (onRecognitionResults (construct (pageWith (lit "ab") 1 true))
        [helloEvent, helloEvent]).textOutput.selectionStart = 15 := by
  have h := sequential_results_splice (construct (pageWith (lit "ab") 1 true))
    [helloEvent, helloEvent] (by decide) (by decide)
  refine ⟨?_, ?_⟩
  · rw [h.1]; decide
  · rw [h.2]; decide

/-- C10: for every Idle controller with a recognition session and microphone
permission granted, two `toggleRecording` actions in immediate succession do
not create two concurrent sessions: both invoke `start()`, the session refuses
the second invocation, at most one session has begun and it is the one
running, and the refusal is shown as an error status; and toggling while
Listening only requests stop and never invokes `start()`. -/
theorem toggle_twice_one_session (s : Controller) (env : StartEnv) (r : Session)
    (hr : s.recognition = some r) (hidle : s.isRecording = false)
    (hperm : checkMicrophonePermission env.permission = PermissionState.granted) :
    (toggleRecording (toggleRecording s env) env).recognition =
        some { running := true, begun := r.begun + (if r.running then 0 else 1),
               startCalls := r.startCalls + 2, stopCalls := r.stopCalls } ∧
      (toggleRecording (toggleRecording s env) env).isRecording = false ∧
      (toggleRecording (toggleRecording s env) env).status =
        { textContent := lit "Error starting recording: " ++ env.startError,
          className := lit "status error" } ∧
      (∀ (s1 : Controller) (r1 : Session) (env1 : StartEnv),
        s1.isRecording = true → s1.recognition = some r1 →
        toggleRecording s1 env1 =
          { s1 with recognition := some { r1 with stopCalls := r1.stopCalls + 1 } }) := by
  have hrec1 := invokeStart_recognition s env.startError r hr
  have hidle1 : (invokeStart s env.startError).isRecording = false := by
    rw [invokeStart_isRecording]; exact hidle
  have hrun : r.start.2.running = true := by
    unfold Session.start; cases hh : r.running <;> simp
  rw [toggleRecording_idle_granted s env r hr hidle hperm,
    toggleRecording_idle_granted _ env _ hrec1 hidle1 hperm]
  refine ⟨?_, ?_, ?_, ?_⟩
  · rw [invokeStart_recognition _ _ _ hrec1]
    unfold Session.start
    cases hh : r.running <;> simp
  · rw [invokeStart_isRecording]; exact hidle1
  · exact invokeStart_refused _ _ _ hrec1 hrun
  · intro s1 r1 env1 hrec hs1
    unfold toggleRecording stopRecording
    simp [hrec, hs1, Session.stop]

/-- C10 at a fresh controller, permission granted: after two toggles one session
has begun. -/
theorem toggle_twice_one_session_witness :
    (toggleRecording (toggleRecording (construct (pageWith [] 0 true))
        { permission := PermissionQuery.answers PermissionState.granted,
          acquisition := Acquisition.stream, startError := lit "already started" })
        { permission := PermissionQuery.answers PermissionState.granted,
          acquisition := Acquisition.stream, startError := lit "already started" }).recognition =
      some { running := true, begun := 1, startCalls := 2, stopCalls := 0 } :=
  (toggle_twice_one_session (construct (pageWith [] 0 true))
    { permission := PermissionQuery.answers PermissionState.granted,
      acquisition := Acquisition.stream, startError := lit "already started" }
    { running := false, begun := 0, startCalls := 0, stopCalls := 0 }
    (by decide) (by decide) (by decide)).1

end SpeechToText
